import Mathlib

/-!
Verification of the request-translation layer of the alpaca-mcp-server
repository (src/alpaca_mcp_server.py): timeframe parsing, stock order
request building, option leg validation, strategy classification and the
brokerage error taxonomy mapper.  Python strings are embedded as `List Char`,
Python `None`-able values as `Option`, and fallible paths as `Except` /
result pairs.  Numeric fields (prices, quantities) are carried as `Int`;
the code performs no arithmetic on them, only presence checks and
pass-through.
-/

namespace Alpaca

/-! ## String primitives (models of Python str operations on `List Char`) -/

/-- Python `s.lower()`. -/
def strLower (s : List Char) : List Char := s.map Char.toLower

/-- Python `s.upper()`. -/
def strUpper (s : List Char) : List Char := s.map Char.toUpper

/-- Python `s.startswith(p)` / prefix test. -/
def startsWithStr : List Char → List Char → Bool
  | [], _ => true
  | _ :: _, [] => false
  | a :: n, b :: s => a == b && startsWithStr n s

/-- Python `needle in haystack` (substring containment). -/
def containsStr (needle : List Char) : List Char → Bool
  | [] => needle.isEmpty
  | b :: s => startsWithStr needle (b :: s) || containsStr needle s

/-- Python `s.split(c)[0]`: the segment before the first occurrence of `c`
(the whole string when `c` does not occur). -/
def splitFirst (c : Char) (s : List Char) : List Char :=
  s.takeWhile (fun a => a != c)

/-- Python `s.split(c)[1]`: the segment strictly between the first and second
occurrences of `c` (everything after the first occurrence when there is no
second).  Only meaningful when `c` occurs in `s`. -/
def splitSecondSeg (c : Char) (s : List Char) : List Char :=
  ((s.dropWhile (fun a => a != c)).drop 1).takeWhile (fun a => a != c)

/-- Numeric value of a digit string (the `int(...)` applied to the regex
digit group). -/
def natOfDigits (ds : List Char) : Nat :=
  ds.foldl (fun n c => 10 * n + (c.toNat - 48)) 0

/-- Python `s.strip()`: drop leading and trailing whitespace. -/
def pyStrip (s : List Char) : List Char :=
  ((s.dropWhile Char.isWhitespace).reverse.dropWhile Char.isWhitespace).reverse

/-! ## Enumerations of the data model (src imports of alpaca SDK enums, spec §3) -/

inductive OrderSide
  | BUY
  | SELL
deriving DecidableEq, Repr

inductive OrderType
  | MARKET
  | LIMIT
  | STOP
  | STOP_LIMIT
  | TRAILING_STOP
deriving DecidableEq, Repr

inductive TimeInForce
  | DAY
  | GTC
  | OPG
  | CLS
  | IOC
  | FOK
deriving DecidableEq, Repr

inductive OrderClass
  | SIMPLE
  | BRACKET
  | OCO
  | OTO
  | MLEG
deriving DecidableEq, Repr

inductive TimeFrameUnit
  | Minute
  | Hour
  | Day
  | Week
  | Month
deriving DecidableEq, Repr

/-- The SDK `TimeFrame` value: a structured (amount, unit) pair.  The SDK
class is an external collaborator; per spec §3 a Timeframe is exactly this
record, and its constructor is modelled as plain construction. -/
structure TimeFrame where
  amount : Nat
  unit : TimeFrameUnit
deriving DecidableEq, Repr

/-! ## Timeframe Parser (src/alpaca_mcp_server.py lines 2016-2087) -/

/-- The `unit_mapping` dictionary lookup on the lowercased unit word
(src lines 2055-2066). -/
def unitOfString (u : List Char) : Option TimeFrameUnit :=
  if u = "min".data then some TimeFrameUnit.Minute
  else if u = "hour".data then some TimeFrameUnit.Hour
  else if u = "day".data then some TimeFrameUnit.Day
  else if u = "week".data then some TimeFrameUnit.Week
  else if u = "month".data then some TimeFrameUnit.Month
  else none

/-- The regex-and-range path of `parse_timeframe_with_enums` (src lines
2046-2084).  The pattern `^(\d+)(Min|Hour|Day|Week|Month)$` (IGNORECASE)
matches exactly when the maximal digit prefix is nonempty and the remainder
is one of the five unit words up to case. -/
def parse_timeframe_core (t : List Char) : Option TimeFrame :=
  let digits := t.takeWhile Char.isDigit
  let rest := t.dropWhile Char.isDigit
  if digits = [] then none
  else
    let amount := natOfDigits digits
    match unitOfString (strLower rest) with
    | none => none
    | some unit =>
      if unit = TimeFrameUnit.Minute ∧ amount > 59 then none
      else if unit = TimeFrameUnit.Hour ∧ amount > 23 then none
      else if (unit = TimeFrameUnit.Day ∨ unit = TimeFrameUnit.Week ∨
               unit = TimeFrameUnit.Month) ∧ amount > 365 then none
      else some { amount := amount, unit := unit }

/-- `parse_timeframe_with_enums` (src lines 2016-2087): strip, predefined
shortcut table, then the regex path. -/
def parse_timeframe_with_enums (s : List Char) : Option TimeFrame :=
  let t := pyStrip s
  if t = "1Min".data then some { amount := 1, unit := TimeFrameUnit.Minute }
  else if t = "1Hour".data then some { amount := 1, unit := TimeFrameUnit.Hour }
  else if t = "1Day".data then some { amount := 1, unit := TimeFrameUnit.Day }
  else if t = "1Week".data then some { amount := 1, unit := TimeFrameUnit.Week }
  else if t = "1Month".data then some { amount := 1, unit := TimeFrameUnit.Month }
  else parse_timeframe_core t

/-- The per-unit amount ceiling enforced by the parser (src lines 2070-2082,
spec §3 range invariants). -/
def unitCeiling : TimeFrameUnit → Nat
  | TimeFrameUnit.Minute => 59
  | TimeFrameUnit.Hour => 23
  | TimeFrameUnit.Day => 365
  | TimeFrameUnit.Week => 365
  | TimeFrameUnit.Month => 365

/-! ## Option legs and strategy classification (src lines 1630-1763) -/

/-- The SDK `OptionLegRequest` value built per leg (src lines 1646-1650). -/
structure OptionLegRequest where
  symbol : List Char
  side : OrderSide
  ratio_qty : Int
deriving DecidableEq, Repr

/-- `_analyze_option_strategy_type` (src lines 1731-1763): heuristic triple
`(is_short_straddle, is_short_strangle, is_short_calendar)` over a 2-leg
all-SELL MLEG order, computed from `split`s of the leg symbols. -/
def _analyze_option_strategy_type (order_legs : List OptionLegRequest)
    (order_class : OrderClass) : Bool × Bool × Bool :=
  match order_class, order_legs with
  | OrderClass.MLEG, [leg1, leg2] =>
    if leg1.side = OrderSide.SELL ∧ leg2.side = OrderSide.SELL then
      -- src 1747-1750: straddle when legs[0].split("C")[0] == legs[1].split("P")[0]
      let is_straddle : Bool := splitFirst 'C' leg1.symbol == splitFirst 'P' leg2.symbol
      let is_strangle : Bool := !is_straddle
      -- src 1753-1754: per-leg option type from the marker character
      let leg1_type : Char := if containsStr ("C".data) leg1.symbol then 'C' else 'P'
      let leg2_type : Char := if containsStr ("C".data) leg2.symbol then 'C' else 'P'
      if leg1_type = 'C' ∧ leg2_type = 'C' then
        -- src 1757-1761: calendar when the 6-char substrings after the first
        -- "C" (up to the next "C", Python split semantics) differ
        let leg1_exp := (splitSecondSeg 'C' leg1.symbol).take 6
        let leg2_exp := (splitSecondSeg 'C' leg2.symbol).take 6
        if leg1_exp ≠ leg2_exp then (is_straddle, false, true)
        else (is_straddle, is_strangle, false)
      else (is_straddle, is_strangle, false)
    else (false, false, false)
  | _, _ => (false, false, false)

/-- The derived strategy shape of spec §3, collapsing the analyzer triple in
the priority order the error mapper consumes it (src lines 1868-1875). -/
inductive StrategyShape
  | SHORT_STRADDLE
  | SHORT_STRANGLE
  | SHORT_CALENDAR
  | NONE
deriving DecidableEq, Repr

/-- `classify_strategy` of spec §4.3: the analyzer triple read in the error
mapper's priority order (straddle, then strangle, then calendar). -/
def classify_strategy (order_legs : List OptionLegRequest)
    (order_class : OrderClass) : StrategyShape :=
  match _analyze_option_strategy_type order_legs order_class with
  | (true, _, _) => StrategyShape.SHORT_STRADDLE
  | (false, true, _) => StrategyShape.SHORT_STRANGLE
  | (false, false, true) => StrategyShape.SHORT_CALENDAR
  | (false, false, false) => StrategyShape.NONE

/-- The straddle flag as the code computes it (src line 1747). -/
def straddleFlag (leg1 leg2 : OptionLegRequest) : Bool :=
  splitFirst 'C' leg1.symbol == splitFirst 'P' leg2.symbol

/-- The calendar flag as the code computes it (src lines 1753-1760): both
symbols contain the marker `'C'` and the 6-character substrings following the
first `'C'` differ. -/
def calendarFlag (leg1 leg2 : OptionLegRequest) : Bool :=
  containsStr ("C".data) leg1.symbol && containsStr ("C".data) leg2.symbol &&
    ((splitSecondSeg 'C' leg1.symbol).take 6 != (splitSecondSeg 'C' leg2.symbol).take 6)

/-! ## Error Taxonomy Mapper (src lines 1766-1901) -/

/-- `_get_short_straddle_error_message` (src lines 1766-1785). -/
def _get_short_straddle_error_message : List Char :=
  ("\n    Error: Account not eligible to trade short straddles.\n\n    This error occurs because short straddles require Level 4 options trading permission.\n    A short straddle involves:\n    - Selling a call option\n    - Selling a put option\n    - Both options have the same strike price and expiration\n\n    Required Account Level:\n    - Level 4 options trading permission is required\n    - Please contact your broker to upgrade your account level if needed\n\n    Alternative Strategies:\n    - Consider using a long straddle instead\n    - Use a debit spread strategy\n    - Implement a covered call or cash-secured put\n    ").data

/-- `_get_short_strangle_error_message` (src lines 1788-1807). -/
def _get_short_strangle_error_message : List Char :=
  ("\n    Error: Account not eligible to trade short strangles.\n\n    This error occurs because short strangles require Level 4 options trading permission.\n    A short strangle involves:\n    - Selling an out-of-the-money call option\n    - Selling an out-of-the-money put option\n    - Both options have the same expiration\n\n    Required Account Level:\n    - Level 4 options trading permission is required\n    - Please contact your broker to upgrade your account level if needed\n\n    Alternative Strategies:\n    - Consider using a long strangle instead\n    - Use a debit spread strategy\n    - Implement a covered call or cash-secured put\n    ").data

/-- `_get_short_calendar_error_message` (src lines 1810-1829). -/
def _get_short_calendar_error_message : List Char :=
  ("\n    Error: Account not eligible to trade short calendar spreads.\n\n    This error occurs because short calendar spreads require Level 4 options trading permission.\n    A short calendar spread involves:\n    - Selling a longer-term option\n    - Selling a shorter-term option\n    - Both options have the same strike price\n\n    Required Account Level:\n    - Level 4 options trading permission is required\n    - Please contact your broker to upgrade your account level if needed\n\n    Alternative Strategies:\n    - Consider using a long calendar spread instead\n    - Use a debit spread strategy\n    - Implement a covered call or cash-secured put\n    ").data

/-- `_get_uncovered_options_error_message` (src lines 1832-1851). -/
def _get_uncovered_options_error_message : List Char :=
  ("\n    Error: Account not eligible to trade uncovered option contracts.\n\n    This error occurs when attempting to place an order that could result in an uncovered position.\n    Common scenarios include:\n    1. Selling naked calls\n    2. Calendar spreads where the short leg expires after the long leg\n    3. Other strategies that could leave uncovered positions\n\n    Required Account Level:\n    - Level 4 options trading permission is required for uncovered options\n    - Please contact your broker to upgrade your account level if needed\n\n    Alternative Strategies:\n    - Consider using covered calls instead of naked calls\n    - Use debit spreads instead of calendar spreads\n    - Ensure all positions are properly hedged\n    ").data

/-- The generic permission-denied explanation (src lines 1877-1891), an
f-string echoing the original error at the end. -/
def permission_denied_message (error_message : List Char) : List Char :=
  ("\n        Error: Permission denied for option trading.\n\n        Possible reasons:\n        1. Insufficient account level for the requested strategy\n        2. Account restrictions on option trading\n        3. Missing required permissions\n\n        Please check:\n        1. Your account\x27s option trading level\n        2. Any specific restrictions on your account\n        3. Required permissions for the strategy you\x27re trying to implement\n\n        Original error: ").data
    ++ error_message ++ ("\n        ").data

/-- The generic order-placement-failure explanation (src lines 1893-1901),
an f-string embedding the original error text. -/
def generic_order_error_message (error_message : List Char) : List Char :=
  ("\n        Error placing option order: ").data ++ error_message ++
    ("\n\n        Please check:\n        1. All option symbols are valid\n        2. Your account has sufficient buying power\n        3. The market is open for trading\n        4. Your account has the required permissions\n        ").data

/-- `_handle_option_api_error` (src lines 1854-1901). -/
def _handle_option_api_error (error_message : List Char)
    (order_legs : List OptionLegRequest) (order_class : OrderClass) : List Char :=
  if containsStr ("40310000".data) error_message &&
      containsStr ("not eligible to trade uncovered option contracts".data) error_message then
    match _analyze_option_strategy_type order_legs order_class with
    | (is_straddle, is_strangle, is_calendar) =>
      if is_straddle then _get_short_straddle_error_message
      else if is_strangle then _get_short_strangle_error_message
      else if is_calendar then _get_short_calendar_error_message
      else _get_uncovered_options_error_message
  else if containsStr ("403".data) error_message then
    permission_denied_message error_message
  else
    generic_order_error_message error_message

/-! ## Stock Order Request Builder (src lines 750-902, `place_stock_order`) -/

/-- The `time_in_force` argument: a pre-typed enum value or a string
(src signature line 756). -/
inductive TifArg
  | enum (t : TimeInForce)
  | str (s : List Char)
deriving DecidableEq

/-- String-to-enum conversion of `time_in_force` (src lines 794-816). -/
def convert_time_in_force (t : TifArg) : Except (List Char) TimeInForce :=
  match t with
  | TifArg.enum tf => Except.ok tf
  | TifArg.str s =>
    let u := strUpper s
    if u = "DAY".data then Except.ok TimeInForce.DAY
    else if u = "GTC".data then Except.ok TimeInForce.GTC
    else if u = "OPG".data then Except.ok TimeInForce.OPG
    else if u = "CLS".data then Except.ok TimeInForce.CLS
    else if u = "IOC".data then Except.ok TimeInForce.IOC
    else if u = "FOK".data then Except.ok TimeInForce.FOK
    else Except.error (("Invalid time_in_force: ").data ++ s ++
      (". Valid options are: DAY, GTC, OPG, CLS, IOC, FOK").data)

/-- Side-string validation (src lines 786-792). -/
def parse_side (side : List Char) : Option OrderSide :=
  if strLower side = "buy".data then some OrderSide.BUY
  else if strLower side = "sell".data then some OrderSide.SELL
  else none

/-- The five SDK request classes the builder constructs, one constructor per
order type, each carrying exactly the keyword fields the source passes
(src lines 820-883). -/
inductive StockOrderRequest
  | marketOrder (symbol : List Char) (qty : Int) (side : OrderSide)
      (type : OrderType) (time_in_force : TimeInForce) (extended_hours : Bool)
      (client_order_id : List Char)
  | limitOrder (symbol : List Char) (qty : Int) (side : OrderSide)
      (type : OrderType) (time_in_force : TimeInForce) (limit_price : Int)
      (extended_hours : Bool) (client_order_id : List Char)
  | stopOrder (symbol : List Char) (qty : Int) (side : OrderSide)
      (type : OrderType) (time_in_force : TimeInForce) (stop_price : Int)
      (extended_hours : Bool) (client_order_id : List Char)
  | stopLimitOrder (symbol : List Char) (qty : Int) (side : OrderSide)
      (type : OrderType) (time_in_force : TimeInForce) (stop_price : Int)
      (limit_price : Int) (extended_hours : Bool) (client_order_id : List Char)
  | trailingStopOrder (symbol : List Char) (qty : Int) (side : OrderSide)
      (type : OrderType) (time_in_force : TimeInForce) (trail_price : Option Int)
      (trail_percent : Option Int) (extended_hours : Bool)
      (client_order_id : List Char)
deriving DecidableEq

/-- The `type` field each constructor call passes explicitly. -/
def StockOrderRequest.reqType : StockOrderRequest → OrderType
  | StockOrderRequest.marketOrder _ _ _ t _ _ _ => t
  | StockOrderRequest.limitOrder _ _ _ t _ _ _ _ => t
  | StockOrderRequest.stopOrder _ _ _ t _ _ _ _ => t
  | StockOrderRequest.stopLimitOrder _ _ _ t _ _ _ _ _ => t
  | StockOrderRequest.trailingStopOrder _ _ _ t _ _ _ _ _ => t

/-- `client_order_id or f"order_{int(time.time())}"` (src line 828 etc.):
Python `or` also replaces an empty string.  `now` models `int(time.time())`. -/
def defaulted_client_order_id (cid : Option (List Char)) (now : Nat) : List Char :=
  match cid with
  | some s => if s.isEmpty then ("order_").data ++ (toString now).data else s
  | none => ("order_").data ++ (toString now).data

/-- The arguments of `place_stock_order` (src lines 751-762). -/
structure StockArgs where
  symbol : List Char
  side : List Char
  quantity : Int
  order_type : List Char
  time_in_force : TifArg
  limit_price : Option Int
  stop_price : Option Int
  trail_price : Option Int
  trail_percent : Option Int
  extended_hours : Bool
  client_order_id : Option (List Char)
deriving DecidableEq

/-- The validation-and-construction stage of `place_stock_order`
(src lines 786-885), the spec §4.2 `build_order_request` contract: validate
side, time-in-force and order type, check the per-type companion price
fields, and build the matching request object. -/
def build_order_request (a : StockArgs) (now : Nat) :
    Except (List Char) StockOrderRequest :=
  match parse_side a.side with
  | none => Except.error (("Invalid order side: ").data ++ a.side ++
      (". Must be \x27buy\x27 or \x27sell\x27.").data)
  | some order_side =>
    match convert_time_in_force a.time_in_force with
    | Except.error e => Except.error e
    | Except.ok tif_enum =>
      let cid := defaulted_client_order_id a.client_order_id now
      let ot := strUpper a.order_type
      if ot = "MARKET".data then
        Except.ok (StockOrderRequest.marketOrder a.symbol a.quantity order_side
          OrderType.MARKET tif_enum a.extended_hours cid)
      else if ot = "LIMIT".data then
        match a.limit_price with
        | none => Except.error ("limit_price is required for LIMIT orders.").data
        | some lp =>
          Except.ok (StockOrderRequest.limitOrder a.symbol a.quantity order_side
            OrderType.LIMIT tif_enum lp a.extended_hours cid)
      else if ot = "STOP".data then
        match a.stop_price with
        | none => Except.error ("stop_price is required for STOP orders.").data
        | some sp =>
          Except.ok (StockOrderRequest.stopOrder a.symbol a.quantity order_side
            OrderType.STOP tif_enum sp a.extended_hours cid)
      else if ot = "STOP_LIMIT".data then
        match a.stop_price, a.limit_price with
        | some sp, some lp =>
          Except.ok (StockOrderRequest.stopLimitOrder a.symbol a.quantity
            order_side OrderType.STOP_LIMIT tif_enum sp lp a.extended_hours cid)
        | _, _ =>
          Except.error
            ("Both stop_price and limit_price are required for STOP_LIMIT orders.").data
      else if ot = "TRAILING_STOP".data then
        match a.trail_price, a.trail_percent with
        | none, none =>
          Except.error
            ("Either trail_price or trail_percent is required for TRAILING_STOP orders.").data
        | tp, tpc =>
          Except.ok (StockOrderRequest.trailingStopOrder a.symbol a.quantity
            order_side OrderType.TRAILING_STOP tif_enum tp tpc a.extended_hours cid)
      else
        Except.error (("Invalid order type: ").data ++ a.order_type ++
          (". Must be one of: MARKET, LIMIT, STOP, STOP_LIMIT, TRAILING_STOP.").data)

/-- The brokerage order object returned by the external client.  Response
formatting is presentation (out of scope per spec §1), so only an identifier
is carried. -/
structure Order where
  id : List Char
deriving DecidableEq

/-- Outcome of `trade_client.submit_order`: a result object, a raised
`APIError`, or any other raised exception (each carrying `str(e)`). -/
inductive SubmitOutcome (α : Type)
  | ok (o : α)
  | raisesApi (msg : List Char)
  | raisesOther (msg : List Char)

/-- The success formatting of `place_stock_order` (src lines 889-900),
reduced to its fixed leading text plus the order id; the rest of the
formatting is presentation and out of scope per spec §1. -/
def format_stock_success (o : Order) : List Char :=
  ("\nOrder Placed Successfully:\n-------------------------\nOrder ID: ").data ++ o.id

/-- `place_stock_order` (src lines 750-902): build the request, submit it,
and convert every raised exception into a returned string
(src lines 901-902).  The second component records whether
`trade_client.submit_order` was invoked. -/
def place_stock_order (client : StockOrderRequest → SubmitOutcome Order)
    (a : StockArgs) (now : Nat) : List Char × Bool :=
  match build_order_request a now with
  | Except.error e => (e, false)
  | Except.ok req =>
    match client req with
    | SubmitOutcome.ok o => (format_stock_success o, true)
    | SubmitOutcome.raisesApi m => (("Error placing order: ").data ++ m, true)
    | SubmitOutcome.raisesOther m => (("Error placing order: ").data ++ m, true)

/-! ## Option order pipeline (src lines 1595-1683 and 1909-2013) -/

/-- A leg dictionary's `ratio_qty` entry: a Python int or a value of some
other runtime type (the `isinstance(..., int)` check of src line 1635). -/
inductive RatioQty
  | intVal (n : Int)
  | nonInt
deriving DecidableEq

/-- One entry of the `legs` argument (src lines 1930-1934). -/
structure LegDict where
  symbol : List Char
  side : List Char
  ratio_qty : RatioQty
deriving DecidableEq

/-- `_validate_option_order_inputs` (src lines 1595-1607). -/
def _validate_option_order_inputs (legs : List LegDict) (quantity : Int)
    (time_in_force : TimeInForce) : Option (List Char) :=
  if legs.isEmpty then some ("Error: No option legs provided").data
  else if legs.length > 4 then
    some ("Error: Maximum of 4 legs allowed for option orders").data
  else if quantity ≤ 0 then some ("Error: Quantity must be positive").data
  else if time_in_force ≠ TimeInForce.DAY then
    some ("Error: Only DAY time_in_force is supported for options trading").data
  else none

/-- The `order_class` argument: a string, a pre-typed enum, or omitted
(src signature line 1912). -/
inductive OrderClassArg
  | enum (c : OrderClass)
  | str (s : List Char)
  | omitted
deriving DecidableEq

/-- `_convert_order_class_string` (src lines 1610-1627): `ok (some c)` for a
recognized string or enum, `ok none` for an omitted class (defaulted later),
`error` for an unrecognized string. -/
def _convert_order_class_string (order_class : OrderClassArg) :
    Except (List Char) (Option OrderClass) :=
  match order_class with
  | OrderClassArg.str s =>
    let u := strUpper s
    if u = "SIMPLE".data then Except.ok (some OrderClass.SIMPLE)
    else if u = "BRACKET".data then Except.ok (some OrderClass.BRACKET)
    else if u = "OCO".data then Except.ok (some OrderClass.OCO)
    else if u = "OTO".data then Except.ok (some OrderClass.OTO)
    else if u = "MLEG".data then Except.ok (some OrderClass.MLEG)
    else Except.error (("Invalid order class: ").data ++ s ++
      (". Must be one of: simple, bracket, oco, oto, mleg").data)
  | OrderClassArg.enum c => Except.ok (some c)
  | OrderClassArg.omitted => Except.ok none

/-- `_process_option_legs` (src lines 1630-1651): per-leg ratio_qty and side
validation, building `OptionLegRequest`s in input order; the first failing
leg's message is returned. -/
def _process_option_legs : List LegDict → Except (List Char) (List OptionLegRequest)
  | [] => Except.ok []
  | leg :: rest =>
    match leg.ratio_qty with
    | RatioQty.nonInt =>
      Except.error (("Error: Invalid ratio_qty for leg ").data ++ leg.symbol ++
        (". Must be positive integer.").data)
    | RatioQty.intVal n =>
      if n ≤ 0 then
        Except.error (("Error: Invalid ratio_qty for leg ").data ++ leg.symbol ++
          (". Must be positive integer.").data)
      else
        match (if strLower leg.side = "buy".data then some OrderSide.BUY
               else if strLower leg.side = "sell".data then some OrderSide.SELL
               else none) with
        | none => Except.error (("Invalid order side: ").data ++ leg.side ++
            (". Must be \x27buy\x27 or \x27sell\x27.").data)
        | some order_side =>
          match _process_option_legs rest with
          | Except.error e => Except.error e
          | Except.ok tl => Except.ok (⟨leg.symbol, order_side, n⟩ :: tl)

/-- The spec §4.3 `process_legs` contract: the precondition checks of
`_validate_option_order_inputs` followed by the per-leg processing of
`_process_option_legs`, in the order `place_option_market_order` runs them
(src lines 1968-1988). -/
def process_legs (legs : List LegDict) (quantity : Int)
    (time_in_force : TimeInForce) : Except (List Char) (List OptionLegRequest) :=
  match _validate_option_order_inputs legs quantity time_in_force with
  | some e => Except.error e
  | none => _process_option_legs legs

/-- A leg dictionary that passes both per-leg checks of
`_process_option_legs`: an integral positive ratio and a recognized side. -/
def validLeg (leg : LegDict) : Bool :=
  (match leg.ratio_qty with
   | RatioQty.intVal n => decide (0 < n)
   | RatioQty.nonInt => false) &&
    (strLower leg.side = "buy".data || strLower leg.side = "sell".data)

/-- The `OptionLegRequest` that `_process_option_legs` builds from a valid
leg dictionary (src lines 1646-1650). -/
def legToReq (leg : LegDict) : OptionLegRequest :=
  ⟨leg.symbol,
   (if strLower leg.side = "buy".data then OrderSide.BUY else OrderSide.SELL),
   (match leg.ratio_qty with
    | RatioQty.intVal n => n
    | RatioQty.nonInt => 0)⟩

/-- The option `MarketOrderRequest` (src lines 1654-1683): the SDK class with
the optional fields the two branches populate. -/
structure OptionOrderRequest where
  symbol : Option (List Char)
  qty : Int
  side : Option OrderSide
  order_class : OrderClass
  time_in_force : TimeInForce
  extended_hours : Bool
  client_order_id : List Char
  type : OrderType
  legs : Option (List OptionLegRequest)
deriving DecidableEq

/-- `_create_option_market_order_request` (src lines 1654-1683).  `none`
models the `IndexError` Python raises at `order_legs[0]` when a non-MLEG
class meets an empty processed-leg list (unreachable after validation). -/
def _create_option_market_order_request (order_legs : List OptionLegRequest)
    (order_class : OrderClass) (quantity : Int) (time_in_force : TimeInForce)
    (extended_hours : Bool) (now : Nat) : Option OptionOrderRequest :=
  if order_class = OrderClass.MLEG then
    some { symbol := none, qty := quantity, side := none,
           order_class := order_class, time_in_force := time_in_force,
           extended_hours := extended_hours,
           client_order_id := ("mcp_opt_").data ++ (toString now).data,
           type := OrderType.MARKET, legs := some order_legs }
  else
    match order_legs with
    | [] => none
    | leg0 :: _ =>
      some { symbol := some leg0.symbol, qty := quantity, side := some leg0.side,
             order_class := order_class, time_in_force := time_in_force,
             extended_hours := extended_hours,
             client_order_id := ("mcp_opt_").data ++ (toString now).data,
             type := OrderType.MARKET, legs := none }

/-- The generic unexpected-error template of `place_option_market_order`
(src lines 2004-2013), an f-string embedding `str(e)`. -/
def unexpected_option_error (msg : List Char) : List Char :=
  ("\n        Unexpected error placing option order: ").data ++ msg ++
    ("\n\n        Please try:\n        1. Verifying all input parameters\n        2. Checking your account status\n        3. Ensuring market is open\n        4. Contacting support if the issue persists\n        ").data

/-- The success formatting of `place_option_market_order`
(src `_format_option_order_response`, lines 1686-1728), reduced to its fixed
leading text plus the order id; the rest is presentation, out of scope per
spec §1. -/
def format_option_success (o : Order) : List Char :=
  ("\n            Option Market Order Placed Successfully:\n            --------------------------------------\n            Order ID: ").data ++ o.id

/-- The arguments of `place_option_market_order` (src lines 1910-1916). -/
structure OptionArgs where
  legs : List LegDict
  order_class : OrderClassArg
  quantity : Int
  time_in_force : TimeInForce
  extended_hours : Bool
deriving DecidableEq

/-- The class defaulting of `place_option_market_order` (src lines
1980-1982): MLEG when more than one leg, else SIMPLE, unless the caller
supplied a class. -/
def resolve_order_class (oc : Option OrderClass) (legs : List LegDict) :
    OrderClass :=
  match oc with
  | some c => c
  | none => if legs.length > 1 then OrderClass.MLEG else OrderClass.SIMPLE

/-- The pre-submission stages of `place_option_market_order` (src lines
1968-1993), in source order: input validation, order-class conversion,
class defaulting, leg processing, request creation.  Returns the request to
submit together with the processed legs and resolved class the exception
handlers use. -/
def option_order_pipeline (a : OptionArgs) (now : Nat) :
    Except (List Char) (OptionOrderRequest × List OptionLegRequest × OrderClass) :=
  match _validate_option_order_inputs a.legs a.quantity a.time_in_force with
  | some err => Except.error err
  | none =>
    match _convert_order_class_string a.order_class with
    | Except.error msg => Except.error msg
    | Except.ok oc =>
      let order_class := resolve_order_class oc a.legs
      match _process_option_legs a.legs with
      | Except.error msg => Except.error msg
      | Except.ok order_legs =>
        match _create_option_market_order_request order_legs order_class
            a.quantity a.time_in_force a.extended_hours now with
        | none => Except.error (unexpected_option_error ("list index out of range").data)
        | some order_data => Except.ok (order_data, order_legs, order_class)

/-- `place_option_market_order` (src lines 1909-2013): run the pipeline,
submit, format success, and route raised `APIError`s through
`_handle_option_api_error` and any other exception through the generic
unexpected-error template.  The second component records whether
`trade_client.submit_order` was invoked. -/
def place_option_market_order (client : OptionOrderRequest → SubmitOutcome Order)
    (a : OptionArgs) (now : Nat) : List Char × Bool :=
  match option_order_pipeline a now with
  | Except.error e => (e, false)
  | Except.ok (order_data, order_legs, order_class) =>
    match client order_data with
    | SubmitOutcome.ok o => (format_option_success o, true)
    | SubmitOutcome.raisesApi m =>
      (_handle_option_api_error m order_legs order_class, true)
    | SubmitOutcome.raisesOther m => (unexpected_option_error m, true)

/-- A leg whose ratio_qty fails the integrality-or-positivity check. -/
def badRatio (leg : LegDict) : Prop :=
  leg.ratio_qty = RatioQty.nonInt ∨
    ∃ n, leg.ratio_qty = RatioQty.intVal n ∧ n ≤ 0

/-- Whether a string starts with one of a list of prefixes. -/
def startsAny (s : List Char) (ps : List (List Char)) : Bool :=
  ps.any (fun p => startsWithStr p s)

/-- The fixed leading texts of every result `place_stock_order` can return:
the success banner, the validation failure messages (src lines 786-885), and
the exception wrapper (src line 902). -/
def stock_result_prefixes : List (List Char) :=
  [("\nOrder Placed Successfully:").data,
   ("Invalid order side: ").data,
   ("Invalid time_in_force: ").data,
   ("Invalid order type: ").data,
   ("limit_price is required").data,
   ("stop_price is required").data,
   ("Both stop_price and limit_price are required").data,
   ("Either trail_price or trail_percent is required").data,
   ("Error placing order: ").data]

/-- The fixed leading texts of every result `place_option_market_order` can
return: the success banner, the input-validation and per-leg failure
messages (src lines 1595-1651), the order-class failure (src line 1626), the
indented API-error templates (src lines 1766-1901) and the unexpected-error
template (src lines 2004-2013). -/
def option_result_prefixes : List (List Char) :=
  [("\n            Option Market Order Placed Successfully:").data,
   ("Error: ").data,
   ("Invalid order side: ").data,
   ("Invalid order class: ").data,
   ("\n    Error: ").data,
   ("\n        Error: ").data,
   ("\n        Error placing option order: ").data,
   ("\n        Unexpected error placing option order: ").data]

/-! ## Theorems -/

/-- A string starts with itself followed by anything. -/
theorem startsWithStr_append (p t : List Char) : startsWithStr p (p ++ t) = true := by
  induction p with
  | nil => rfl
  | cons a p ih => simp [startsWithStr, ih]

/-- Substring containment survives prepending. -/
theorem containsStr_append_left (n s : List Char) (h : containsStr n s = true)
    (x : List Char) : containsStr n (x ++ s) = true := by
  induction x with
  | nil => exact h
  | cons a x ih => simp [containsStr, ih]

/-- A string contains itself followed by anything. -/
theorem containsStr_self_append (n t : List Char) : containsStr n (n ++ t) = true := by
  cases n with
  | nil => cases t <;> simp [containsStr, startsWithStr, List.isEmpty]
  | cons a n' =>
    have h := startsWithStr_append (a :: n') t
    rw [List.cons_append] at h
    simp only [containsStr, List.append_eq]
    simp [h]

/-- The predefined shortcut table agrees with the general regex path, so the
full parser coincides with the core on the stripped input. -/
theorem parse_eq_core (s : List Char) :
    parse_timeframe_with_enums s = parse_timeframe_core (pyStrip s) := by
  simp only [parse_timeframe_with_enums]
  split_ifs with h1 h2 h3 h4 h5
  · rw [h1]; decide
  · rw [h2]; decide
  · rw [h3]; decide
  · rw [h4]; decide
  · rw [h5]; decide
  · rfl

/-- On an input whose maximal digit prefix is nonempty and whose remainder is
a recognized unit word, the core path reduces to the ceiling test. -/
theorem parse_core_spec (t : List Char) (u : TimeFrameUnit)
    (hd : t.takeWhile Char.isDigit ≠ [])
    (hu : unitOfString (strLower (t.dropWhile Char.isDigit)) = some u) :
    parse_timeframe_core t =
      if natOfDigits (t.takeWhile Char.isDigit) ≤ unitCeiling u
      then some { amount := natOfDigits (t.takeWhile Char.isDigit), unit := u }
      else none := by
  simp only [parse_timeframe_core]
  rw [if_neg hd, hu]
  cases u <;> simp only [unitCeiling] <;>
    split_ifs <;> first | rfl | omega | simp_all

/-- When the stripped input has no digit prefix or an unrecognized unit word,
the core path fails. -/
theorem parse_core_none (t : List Char)
    (h : t.takeWhile Char.isDigit = [] ∨
      unitOfString (strLower (t.dropWhile Char.isDigit)) = none) :
    parse_timeframe_core t = none := by
  simp only [parse_timeframe_core]
  rcases h with h | h
  · rw [if_pos h]
  · split_ifs with h1
    · rfl
    · rw [h]

/-- Claim C4 (counterexample): the claim asserts that parsing fails for every
string not matching the pattern `<positive integer><unit-word>` with no other
characters.  The code first strips whitespace and accepts a zero amount, so
`" 1Min "` (contains whitespace characters, hence not of the pattern) and
`"0Min"` (amount `0` is not a positive integer) both parse successfully. -/
theorem c4_counterexample :
    parse_timeframe_with_enums (" 1Min ".data) =
        some { amount := 1, unit := TimeFrameUnit.Minute } ∧
      parse_timeframe_with_enums ("0Min".data) =
        some { amount := 0, unit := TimeFrameUnit.Minute } ∧
      Char.isWhitespace ' ' = true := by
  decide

/-- Claim C4 (amended): for every string whose whitespace-stripped form is
`<digit string><unit-word>` (unit word case-insensitive, no other
characters — equivalently: the stripped form has a nonempty maximal digit
prefix whose remainder lowercases to one of Min/Hour/Day/Week/Month),
parsing succeeds with exactly that amount and unit when the amount is within
the per-unit ceiling (MINUTE ≤ 59, HOUR ≤ 23, DAY/WEEK/MONTH ≤ 365) and
returns the failure value `none` (never raises — the function is total into
`Option`) when the amount exceeds the ceiling; and for every string whose
stripped form does not match that pattern, parsing returns `none`. -/
theorem c4_timeframe_parse (s : List Char) (u : TimeFrameUnit) :
    (((pyStrip s).takeWhile Char.isDigit ≠ [] →
      unitOfString (strLower ((pyStrip s).dropWhile Char.isDigit)) = some u →
      ((natOfDigits ((pyStrip s).takeWhile Char.isDigit) ≤ unitCeiling u →
          parse_timeframe_with_enums s =
            some { amount := natOfDigits ((pyStrip s).takeWhile Char.isDigit),
                   unit := u }) ∧
        (unitCeiling u < natOfDigits ((pyStrip s).takeWhile Char.isDigit) →
          parse_timeframe_with_enums s = none)))) ∧
    ((pyStrip s).takeWhile Char.isDigit = [] ∨
      unitOfString (strLower ((pyStrip s).dropWhile Char.isDigit)) = none →
      parse_timeframe_with_enums s = none) := by
  constructor
  · intro hd hu
    have hc := parse_core_spec (pyStrip s) u hd hu
    constructor
    · intro hle
      rw [parse_eq_core, hc, if_pos hle]
    · intro hgt
      rw [parse_eq_core, hc, if_neg (by omega)]
  · intro h
    rw [parse_eq_core, parse_core_none (pyStrip s) h]

/-- Claim C4 witness: the amended theorem applied to `"45Min"` (in range) and,
through its second conjunct, to `"45Sec"` (unrecognized unit word). -/
theorem c4_witness :
    parse_timeframe_with_enums ("45Min".data) =
        some { amount := 45, unit := TimeFrameUnit.Minute } ∧
      parse_timeframe_with_enums ("45Sec".data) = none := by
  have h1 :=
    ((c4_timeframe_parse ("45Min".data) TimeFrameUnit.Minute).1
      (by decide) (by decide)).1 (by decide)
  have h2 :=
    (c4_timeframe_parse ("45Sec".data) TimeFrameUnit.Minute).2 (Or.inr (by decide))
  constructor
  · rw [h1]; decide
  · exact h2

/-- Branch lemma: an unrecognized side string fails the builder immediately. -/
theorem build_branch_side (a : StockArgs) (now : Nat)
    (h : parse_side a.side = none) :
    build_order_request a now = Except.error (("Invalid order side: ").data ++
      a.side ++ (". Must be \x27buy\x27 or \x27sell\x27.").data) := by
  simp only [build_order_request, h]

/-- Branch lemma: a failed time-in-force conversion is returned as-is. -/
theorem build_branch_tif (a : StockArgs) (now : Nat) (os : OrderSide)
    (e : List Char) (hside : parse_side a.side = some os)
    (htif : convert_time_in_force a.time_in_force = Except.error e) :
    build_order_request a now = Except.error e := by
  simp only [build_order_request, hside, htif]

/-- Branch lemma: the MARKET branch of the builder. -/
theorem build_branch_market (a : StockArgs) (now : Nat) (os : OrderSide)
    (tf : TimeInForce) (hside : parse_side a.side = some os)
    (htif : convert_time_in_force a.time_in_force = Except.ok tf)
    (hot : strUpper a.order_type = "MARKET".data) :
    build_order_request a now = Except.ok (StockOrderRequest.marketOrder
      a.symbol a.quantity os OrderType.MARKET tf a.extended_hours
      (defaulted_client_order_id a.client_order_id now)) := by
  simp only [build_order_request, hside, htif, hot]
  rw [if_pos trivial]

/-- Branch lemma: the LIMIT branch of the builder. -/
theorem build_branch_limit (a : StockArgs) (now : Nat) (os : OrderSide)
    (tf : TimeInForce) (hside : parse_side a.side = some os)
    (htif : convert_time_in_force a.time_in_force = Except.ok tf)
    (hot : strUpper a.order_type = "LIMIT".data) :
    build_order_request a now =
      (match a.limit_price with
       | none => Except.error ("limit_price is required for LIMIT orders.").data
       | some lp => Except.ok (StockOrderRequest.limitOrder a.symbol a.quantity
           os OrderType.LIMIT tf lp a.extended_hours
           (defaulted_client_order_id a.client_order_id now))) := by
  simp only [build_order_request, hside, htif, hot]
  rw [if_neg (by decide), if_pos trivial]

/-- Branch lemma: the STOP branch of the builder. -/
theorem build_branch_stop (a : StockArgs) (now : Nat) (os : OrderSide)
    (tf : TimeInForce) (hside : parse_side a.side = some os)
    (htif : convert_time_in_force a.time_in_force = Except.ok tf)
    (hot : strUpper a.order_type = "STOP".data) :
    build_order_request a now =
      (match a.stop_price with
       | none => Except.error ("stop_price is required for STOP orders.").data
       | some sp => Except.ok (StockOrderRequest.stopOrder a.symbol a.quantity
           os OrderType.STOP tf sp a.extended_hours
           (defaulted_client_order_id a.client_order_id now))) := by
  simp only [build_order_request, hside, htif, hot]
  rw [if_neg (by decide), if_neg (by decide), if_pos trivial]

/-- Branch lemma: the STOP_LIMIT branch of the builder. -/
theorem build_branch_stop_limit (a : StockArgs) (now : Nat) (os : OrderSide)
    (tf : TimeInForce) (hside : parse_side a.side = some os)
    (htif : convert_time_in_force a.time_in_force = Except.ok tf)
    (hot : strUpper a.order_type = "STOP_LIMIT".data) :
    build_order_request a now =
      (match a.stop_price, a.limit_price with
       | some sp, some lp => Except.ok (StockOrderRequest.stopLimitOrder a.symbol
           a.quantity os OrderType.STOP_LIMIT tf sp lp a.extended_hours
           (defaulted_client_order_id a.client_order_id now))
       | _, _ => Except.error
           ("Both stop_price and limit_price are required for STOP_LIMIT orders.").data) := by
  simp only [build_order_request, hside, htif, hot]
  rw [if_neg (by decide), if_neg (by decide), if_neg (by decide), if_pos trivial]

/-- Branch lemma: the TRAILING_STOP branch of the builder. -/
theorem build_branch_trailing (a : StockArgs) (now : Nat) (os : OrderSide)
    (tf : TimeInForce) (hside : parse_side a.side = some os)
    (htif : convert_time_in_force a.time_in_force = Except.ok tf)
    (hot : strUpper a.order_type = "TRAILING_STOP".data) :
    build_order_request a now =
      (match a.trail_price, a.trail_percent with
       | none, none => Except.error
           ("Either trail_price or trail_percent is required for TRAILING_STOP orders.").data
       | tp, tpc => Except.ok (StockOrderRequest.trailingStopOrder a.symbol
           a.quantity os OrderType.TRAILING_STOP tf tp tpc a.extended_hours
           (defaulted_client_order_id a.client_order_id now))) := by
  simp only [build_order_request, hside, htif, hot]
  rw [if_neg (by decide), if_neg (by decide), if_neg (by decide), if_neg (by decide),
    if_pos trivial]

/-- Branch lemma: an unrecognized order type fails the builder. -/
theorem build_branch_invalid_type (a : StockArgs) (now : Nat) (os : OrderSide)
    (tf : TimeInForce) (hside : parse_side a.side = some os)
    (htif : convert_time_in_force a.time_in_force = Except.ok tf)
    (h1 : strUpper a.order_type ≠ "MARKET".data)
    (h2 : strUpper a.order_type ≠ "LIMIT".data)
    (h3 : strUpper a.order_type ≠ "STOP".data)
    (h4 : strUpper a.order_type ≠ "STOP_LIMIT".data)
    (h5 : strUpper a.order_type ≠ "TRAILING_STOP".data) :
    build_order_request a now = Except.error (("Invalid order type: ").data ++
      a.order_type ++
      (". Must be one of: MARKET, LIMIT, STOP, STOP_LIMIT, TRAILING_STOP.").data) := by
  simp only [build_order_request, hside, htif]
  rw [if_neg h1, if_neg h2, if_neg h3, if_neg h4, if_neg h5]

/-- When every leg passes both per-leg checks, `_process_option_legs`
succeeds with the converted legs in input order. -/
theorem process_option_legs_all_valid (legs : List LegDict)
    (h : ∀ leg ∈ legs, validLeg leg = true) :
    _process_option_legs legs = Except.ok (legs.map legToReq) := by
  induction legs with
  | nil => rfl
  | cons leg rest ih =>
    have hleg := h leg (List.mem_cons_self _ _)
    have hrest := ih (fun l hl => h l (List.mem_cons_of_mem _ hl))
    obtain ⟨sym, sd, rq⟩ := leg
    cases rq with
    | nonInt => simp [validLeg] at hleg
    | intVal n =>
      simp only [validLeg, Bool.and_eq_true, Bool.or_eq_true,
        decide_eq_true_eq] at hleg
      obtain ⟨h1, h2⟩ := hleg
      have hn : 0 < n := h1
      simp only [_process_option_legs]
      rw [if_neg (by omega)]
      rcases h2 with hbuy | hsell
      · rw [if_pos hbuy, hrest]
        simp [legToReq, hbuy]
      · have hnb : ¬(strLower sd = "buy".data) := by rw [hsell]; decide
        rw [if_neg hnb, if_pos hsell, hrest]
        simp [legToReq, hsell, hnb]

/-- When `_process_option_legs` succeeds, every input leg passed both
per-leg checks. -/
theorem process_option_legs_ok_valid (legs : List LegDict)
    (reqs : List OptionLegRequest)
    (h : _process_option_legs legs = Except.ok reqs) :
    ∀ leg ∈ legs, validLeg leg = true := by
  induction legs generalizing reqs with
  | nil => intro leg hmem; cases hmem
  | cons leg rest ih =>
    intro l hmem
    obtain ⟨sym, sd, rq⟩ := leg
    cases rq with
    | nonInt => simp [_process_option_legs] at h
    | intVal n =>
      simp only [_process_option_legs] at h
      by_cases h1 : n ≤ 0
      · rw [if_pos h1] at h; cases h
      · rw [if_neg h1] at h
        by_cases h2 : strLower sd = "buy".data
        · rw [if_pos h2] at h
          rcases hrec : _process_option_legs rest with e | tl <;> rw [hrec] at h
          · simp at h
          · rcases List.mem_cons.mp hmem with rfl | hmem
            · simp [validLeg, h2]
              omega
            · exact ih tl hrec l hmem
        · rw [if_neg h2] at h
          by_cases h3 : strLower sd = "sell".data
          · rw [if_pos h3] at h
            rcases hrec : _process_option_legs rest with e | tl <;> rw [hrec] at h
            · simp at h
            · rcases List.mem_cons.mp hmem with rfl | hmem
              · simp [validLeg, h3]
                omega
              · exact ih tl hrec l hmem
          · rw [if_neg h3] at h; cases h

/-- The first leg failing a check determines the returned message: with all
earlier legs valid, a bad-ratio leg yields the ratio message naming its
symbol. -/
theorem process_option_legs_bad_ratio (pre : List LegDict) (leg : LegDict)
    (post : List LegDict) (hpre : ∀ l ∈ pre, validLeg l = true)
    (hbad : badRatio leg) :
    _process_option_legs (pre ++ leg :: post) =
      Except.error (("Error: Invalid ratio_qty for leg ").data ++ leg.symbol ++
        (". Must be positive integer.").data) := by
  induction pre with
  | nil =>
    rcases hbad with hni | ⟨n, hiv, hn⟩
    · simp only [List.nil_append, _process_option_legs, hni]
    · simp only [List.nil_append, _process_option_legs, hiv]
      rw [if_pos hn]
  | cons p pre' ih =>
    have hp := hpre p (List.mem_cons_self _ _)
    have hpre' : ∀ l ∈ pre', validLeg l = true :=
      fun l hl => hpre l (List.mem_cons_of_mem _ hl)
    obtain ⟨sym, sd, rq⟩ := p
    cases rq with
    | nonInt => simp [validLeg] at hp
    | intVal n =>
      simp only [validLeg, Bool.and_eq_true, Bool.or_eq_true,
        decide_eq_true_eq] at hp
      obtain ⟨h1, h2⟩ := hp
      have hn : 0 < n := h1
      simp only [List.cons_append, _process_option_legs, List.append_eq]
      rw [if_neg (by omega)]
      rcases h2 with hbuy | hsell
      · rw [if_pos hbuy, ih hpre']
        rfl
      · have hnb : ¬(strLower sd = "buy".data) := by rw [hsell]; decide
        rw [if_neg hnb, if_pos hsell, ih hpre']
        rfl

/-- A successful build implies the side string was recognized. -/
theorem build_ok_side (a : StockArgs) (now : Nat) (req : StockOrderRequest)
    (h : build_order_request a now = Except.ok req) :
    ∃ os, parse_side a.side = some os := by
  rcases hs : parse_side a.side with _ | os
  · rw [build_branch_side a now hs] at h
    cases h
  · exact ⟨os, rfl⟩

/-- A successful build implies the time-in-force was recognized. -/
theorem build_ok_tif (a : StockArgs) (now : Nat) (req : StockOrderRequest)
    (h : build_order_request a now = Except.ok req) :
    ∃ tf, convert_time_in_force a.time_in_force = Except.ok tf := by
  obtain ⟨os, hos⟩ := build_ok_side a now req h
  rcases ht : convert_time_in_force a.time_in_force with e | tf
  · rw [build_branch_tif a now os e hos ht] at h
    cases h
  · exact ⟨tf, rfl⟩

/-- `_validate_option_order_inputs` returning no error pins down all four
precondition facts. -/
theorem validate_none_facts (legs : List LegDict) (q : Int) (tif : TimeInForce)
    (h : _validate_option_order_inputs legs q tif = none) :
    legs.isEmpty = false ∧ ¬(legs.length > 4) ∧ ¬(q ≤ 0) ∧
      tif = TimeInForce.DAY := by
  simp only [_validate_option_order_inputs] at h
  split_ifs at h with h1 h2 h3 h4
  exact ⟨by simpa using h1, h2, h3, by simpa using h4⟩

/-- A pipeline success implies every validation stage passed. -/
theorem pipeline_ok_facts (a : OptionArgs) (now : Nat)
    (x : OptionOrderRequest × List OptionLegRequest × OrderClass)
    (h : option_order_pipeline a now = Except.ok x) :
    _validate_option_order_inputs a.legs a.quantity a.time_in_force = none ∧
      (∀ e, _convert_order_class_string a.order_class ≠ Except.error e) ∧
      (∃ reqs, _process_option_legs a.legs = Except.ok reqs) := by
  simp only [option_order_pipeline] at h
  rcases hval : _validate_option_order_inputs a.legs a.quantity a.time_in_force
      with _ | err <;> rw [hval] at h
  case some => simp at h
  rcases hcv : _convert_order_class_string a.order_class with e | oc <;>
    rw [hcv] at h
  case error => simp at h
  rcases hpr : _process_option_legs a.legs with e | reqs <;> rw [hpr] at h
  case error => simp at h
  refine ⟨rfl, ?_, ⟨reqs, rfl⟩⟩
  intro e hce
  cases hce

/-- Claim C2 (counterexample): the claim asserts that any two SELL legs under
MLEG that are one call and one put with equal symbol prefixes before the type
marker classify as SHORT_STRADDLE.  The code's check is positional — it
compares the first leg's prefix before `'C'` with the second leg's prefix
before `'P'` — so the straddle `[put "XYZ251010P00150000",
call "XYZ251010C00150000"]` (put listed first: one call, one put, both
prefixes `"XYZ251010"`) classifies as SHORT_STRANGLE, not SHORT_STRADDLE. -/
theorem c2_counterexample :
    containsStr ("C".data) ("XYZ251010P00150000".data) = false ∧
      containsStr ("C".data) ("XYZ251010C00150000".data) = true ∧
      splitFirst 'P' ("XYZ251010P00150000".data) =
        splitFirst 'C' ("XYZ251010C00150000".data) ∧
      classify_strategy
        [⟨"XYZ251010P00150000".data, OrderSide.SELL, 1⟩,
         ⟨"XYZ251010C00150000".data, OrderSide.SELL, 1⟩]
        OrderClass.MLEG = StrategyShape.SHORT_STRANGLE ∧
      StrategyShape.SHORT_STRANGLE ≠ StrategyShape.SHORT_STRADDLE := by
  decide

/-- Claim C2 (amended): for a list of exactly two SELL legs under order class
MLEG, the classifier flags SHORT_STRADDLE exactly when the first leg's symbol
prefix before the first `'C'` equals the second leg's symbol prefix before the
first `'P'`; it flags SHORT_CALENDAR exactly when both symbols contain `'C'`
(both legs read as calls) and the 6-character substrings immediately
following the first `'C'` differ, overriding the strangle flag but not the
straddle flag; and it flags SHORT_STRANGLE exactly when neither of those
holds.  For any leg list that is not exactly two SELL legs under MLEG, the
classification is NONE (no flag set). -/
theorem c2_strategy_classifier (order_legs : List OptionLegRequest)
    (order_class : OrderClass) :
    (∀ leg1 leg2, order_legs = [leg1, leg2] → order_class = OrderClass.MLEG →
      leg1.side = OrderSide.SELL → leg2.side = OrderSide.SELL →
      _analyze_option_strategy_type order_legs order_class =
        (straddleFlag leg1 leg2,
         !straddleFlag leg1 leg2 && !calendarFlag leg1 leg2,
         calendarFlag leg1 leg2)) ∧
    (¬(order_class = OrderClass.MLEG ∧ ∃ leg1 leg2, order_legs = [leg1, leg2] ∧
        leg1.side = OrderSide.SELL ∧ leg2.side = OrderSide.SELL) →
      _analyze_option_strategy_type order_legs order_class = (false, false, false)) := by
  constructor
  · rintro leg1 leg2 rfl rfl hs1 hs2
    simp only [_analyze_option_strategy_type]
    rw [if_pos ⟨hs1, hs2⟩]
    by_cases hc1 : containsStr ("C".data) leg1.symbol = true <;>
      by_cases hc2 : containsStr ("C".data) leg2.symbol = true <;>
        by_cases he : (splitSecondSeg 'C' leg1.symbol).take 6
            = (splitSecondSeg 'C' leg2.symbol).take 6 <;>
          simp [hc1, hc2, he, straddleFlag, calendarFlag]
  · intro h
    rcases order_legs with _ | ⟨leg1, _ | ⟨leg2, _ | ⟨leg3, rest⟩⟩⟩ <;>
      cases order_class <;> try rfl
    simp only [_analyze_option_strategy_type]
    rw [if_neg]
    rintro ⟨hs1, hs2⟩
    exact h ⟨rfl, leg1, leg2, rfl, hs1, hs2⟩

/-- Claim C2 witness: the amended theorem applied to a call-first straddle
(both flags computed: straddle set, strangle and calendar clear) under MLEG. -/
theorem c2_witness :
    _analyze_option_strategy_type
      [⟨"XYZ251010C00150000".data, OrderSide.SELL, 1⟩,
       ⟨"XYZ251010P00150000".data, OrderSide.SELL, 1⟩]
      OrderClass.MLEG = (true, false, false) := by
  have h :=
    (c2_strategy_classifier
      [⟨"XYZ251010C00150000".data, OrderSide.SELL, 1⟩,
       ⟨"XYZ251010P00150000".data, OrderSide.SELL, 1⟩]
      OrderClass.MLEG).1
      ⟨"XYZ251010C00150000".data, OrderSide.SELL, 1⟩
      ⟨"XYZ251010P00150000".data, OrderSide.SELL, 1⟩
      rfl rfl rfl rfl
  rw [h]
  decide

/-- Claim C1: for every brokerage error text, processed leg list and order
class, the error mapper returns: the strategy-specific explanation (straddle,
strangle, calendar — in that priority, as collapsed by `classify_strategy`)
when the text contains the uncovered-options code "40310000" together with
the phrase "not eligible to trade uncovered option contracts" and the
classification is non-NONE, and the generic uncovered-options explanation
when the classification is NONE; else the generic permission-denied
explanation when the text contains "403"; otherwise the generic
order-placement-failure explanation, which contains the original error text
verbatim as a substring. -/
theorem c1_error_taxonomy_mapper (error_message : List Char)
    (order_legs : List OptionLegRequest) (order_class : OrderClass) :
    ((containsStr ("40310000".data) error_message = true ∧
        containsStr ("not eligible to trade uncovered option contracts".data)
          error_message = true) →
      _handle_option_api_error error_message order_legs order_class =
        (match classify_strategy order_legs order_class with
         | StrategyShape.SHORT_STRADDLE => _get_short_straddle_error_message
         | StrategyShape.SHORT_STRANGLE => _get_short_strangle_error_message
         | StrategyShape.SHORT_CALENDAR => _get_short_calendar_error_message
         | StrategyShape.NONE => _get_uncovered_options_error_message)) ∧
    (¬(containsStr ("40310000".data) error_message = true ∧
        containsStr ("not eligible to trade uncovered option contracts".data)
          error_message = true) →
      containsStr ("403".data) error_message = true →
      _handle_option_api_error error_message order_legs order_class =
        permission_denied_message error_message) ∧
    (¬(containsStr ("40310000".data) error_message = true ∧
        containsStr ("not eligible to trade uncovered option contracts".data)
          error_message = true) →
      containsStr ("403".data) error_message = false →
      _handle_option_api_error error_message order_legs order_class =
          generic_order_error_message error_message ∧
        containsStr error_message
          (_handle_option_api_error error_message order_legs order_class) = true) := by
  refine ⟨?_, ?_, ?_⟩
  · rintro ⟨h1, h2⟩
    simp only [_handle_option_api_error, h1, h2, Bool.and_self, if_true]
    rcases ht : _analyze_option_strategy_type order_legs order_class with ⟨s, g, c⟩
    simp only [classify_strategy, ht]
    cases s <;> cases g <;> cases c <;> simp
  · intro hn h403
    have hcond : (containsStr ("40310000".data) error_message &&
        containsStr ("not eligible to trade uncovered option contracts".data)
          error_message) ≠ true := by
      intro hc
      exact hn (by simpa using hc)
    simp only [_handle_option_api_error, if_neg hcond, h403, if_true]
  · intro hn h403
    have hcond : (containsStr ("40310000".data) error_message &&
        containsStr ("not eligible to trade uncovered option contracts".data)
          error_message) ≠ true := by
      intro hc
      exact hn (by simpa using hc)
    have hres : _handle_option_api_error error_message order_legs order_class =
        generic_order_error_message error_message := by
      simp only [_handle_option_api_error, if_neg hcond, h403]
      simp
    refine ⟨hres, ?_⟩
    rw [hres]
    simp only [generic_order_error_message, List.append_assoc]
    exact containsStr_append_left _ _ (containsStr_self_append _ _) _

/-- Claim C1 witness: the mapper applied to an uncovered-options error text
with an empty leg list (classification NONE, generic uncovered-options
explanation), discharging the theorem's hypotheses at that input. -/
theorem c1_witness :
    _handle_option_api_error
      ("code 40310000: account not eligible to trade uncovered option contracts".data)
      [] OrderClass.SIMPLE = _get_uncovered_options_error_message := by
  have h :=
    (c1_error_taxonomy_mapper
      ("code 40310000: account not eligible to trade uncovered option contracts".data)
      [] OrderClass.SIMPLE).1 ⟨by decide, by decide⟩
  rw [h]
  rfl

/-- Claim C3 (counterexample): the claim asserts a failure message naming
exactly the missing field.  For a STOP_LIMIT order with `stop_price`
supplied and `limit_price` absent, the builder returns the combined message
"Both stop_price and limit_price are required for STOP_LIMIT orders.",
which also names `stop_price` — a field that is not missing. -/
theorem c3_counterexample :
    build_order_request
      { symbol := "AAPL".data, side := "buy".data, quantity := 1,
        order_type := "STOP_LIMIT".data,
        time_in_force := TifArg.enum TimeInForce.DAY, limit_price := none,
        stop_price := some 10, trail_price := none, trail_percent := none,
        extended_hours := false, client_order_id := none } 0 =
      Except.error
        ("Both stop_price and limit_price are required for STOP_LIMIT orders.").data ∧
      containsStr ("stop_price".data)
        ("Both stop_price and limit_price are required for STOP_LIMIT orders.").data
        = true := by
  exact ⟨rfl, by decide⟩

/-- Claim C3 (amended): for every stock-order call with valid side and
time-in-force (their validation preceding the order-type dispatch): a LIMIT
order with `limit_price` absent fails with a message naming exactly
`limit_price` (it does not mention `stop_price`), and a STOP order with
`stop_price` absent fails with a message naming exactly `stop_price`; a
STOP_LIMIT order with either companion field absent fails with a single
combined message naming both `stop_price` and `limit_price`; and whenever
the required fields are supplied, the built request's type equals the
requested order type. -/
theorem c3_required_price_fields (a : StockArgs) (now : Nat) (os : OrderSide)
    (tf : TimeInForce) (hside : parse_side a.side = some os)
    (htif : convert_time_in_force a.time_in_force = Except.ok tf) :
    (strUpper a.order_type = "LIMIT".data → a.limit_price = none →
      build_order_request a now =
        Except.error ("limit_price is required for LIMIT orders.").data) ∧
    (∀ lp, strUpper a.order_type = "LIMIT".data → a.limit_price = some lp →
      ∃ req, build_order_request a now = Except.ok req ∧
        req.reqType = OrderType.LIMIT) ∧
    (strUpper a.order_type = "STOP".data → a.stop_price = none →
      build_order_request a now =
        Except.error ("stop_price is required for STOP orders.").data) ∧
    (∀ sp, strUpper a.order_type = "STOP".data → a.stop_price = some sp →
      ∃ req, build_order_request a now = Except.ok req ∧
        req.reqType = OrderType.STOP) ∧
    (strUpper a.order_type = "STOP_LIMIT".data →
      a.stop_price = none ∨ a.limit_price = none →
      build_order_request a now = Except.error
        ("Both stop_price and limit_price are required for STOP_LIMIT orders.").data) ∧
    (∀ sp lp, strUpper a.order_type = "STOP_LIMIT".data →
      a.stop_price = some sp → a.limit_price = some lp →
      ∃ req, build_order_request a now = Except.ok req ∧
        req.reqType = OrderType.STOP_LIMIT) ∧
    (containsStr ("limit_price".data)
        ("limit_price is required for LIMIT orders.").data = true ∧
      containsStr ("stop_price".data)
        ("limit_price is required for LIMIT orders.").data = false ∧
      containsStr ("stop_price".data)
        ("stop_price is required for STOP orders.").data = true ∧
      containsStr ("limit_price".data)
        ("stop_price is required for STOP orders.").data = false ∧
      containsStr ("stop_price".data)
        ("Both stop_price and limit_price are required for STOP_LIMIT orders.").data
        = true ∧
      containsStr ("limit_price".data)
        ("Both stop_price and limit_price are required for STOP_LIMIT orders.").data
        = true) := by
  refine ⟨?_, ?_, ?_, ?_, ?_, ?_, by decide⟩
  · intro hot hnone
    rw [build_branch_limit a now os tf hside htif hot, hnone]
  · intro lp hot hsome
    rw [build_branch_limit a now os tf hside htif hot, hsome]
    exact ⟨_, rfl, rfl⟩
  · intro hot hnone
    rw [build_branch_stop a now os tf hside htif hot, hnone]
  · intro sp hot hsome
    rw [build_branch_stop a now os tf hside htif hot, hsome]
    exact ⟨_, rfl, rfl⟩
  · intro hot hmiss
    rw [build_branch_stop_limit a now os tf hside htif hot]
    rcases h1 : a.stop_price with _ | sp <;> rcases h2 : a.limit_price with _ | lp <;>
      first
        | rfl
        | (exfalso; rcases hmiss with h | h <;> simp_all)
  · intro sp lp hot hsp hlp
    rw [build_branch_stop_limit a now os tf hside htif hot, hsp, hlp]
    exact ⟨_, rfl, rfl⟩

/-- Claim C3 witness: the amended theorem applied to a LIMIT order with no
limit_price (failure naming limit_price) and to a STOP_LIMIT order with both
fields (success of type STOP_LIMIT). -/
theorem c3_witness :
    build_order_request
      { symbol := "AAPL".data, side := "buy".data, quantity := 1,
        order_type := "LIMIT".data, time_in_force := TifArg.str ("gtc".data),
        limit_price := none, stop_price := none, trail_price := none,
        trail_percent := none, extended_hours := false,
        client_order_id := none } 0 =
      Except.error ("limit_price is required for LIMIT orders.").data ∧
      (∃ req, build_order_request
        { symbol := "AAPL".data, side := "buy".data, quantity := 1,
          order_type := "STOP_LIMIT".data, time_in_force := TifArg.str ("gtc".data),
          limit_price := some 7, stop_price := some 6, trail_price := none,
          trail_percent := none, extended_hours := false,
          client_order_id := none } 0 = Except.ok req ∧
        req.reqType = OrderType.STOP_LIMIT) := by
  constructor
  · exact (c3_required_price_fields
      { symbol := "AAPL".data, side := "buy".data, quantity := 1,
        order_type := "LIMIT".data, time_in_force := TifArg.str ("gtc".data),
        limit_price := none, stop_price := none, trail_price := none,
        trail_percent := none, extended_hours := false,
        client_order_id := none } 0 OrderSide.BUY TimeInForce.GTC rfl rfl).1 rfl rfl
  · exact (c3_required_price_fields
      { symbol := "AAPL".data, side := "buy".data, quantity := 1,
        order_type := "STOP_LIMIT".data, time_in_force := TifArg.str ("gtc".data),
        limit_price := some 7, stop_price := some 6, trail_price := none,
        trail_percent := none, extended_hours := false,
        client_order_id := none } 0 OrderSide.BUY TimeInForce.GTC rfl
        rfl).2.2.2.2.2.1 6 7 rfl rfl rfl

/-- Claim C6: for every stock-order call with order_type TRAILING_STOP (side
and time-in-force valid, their validation preceding the order-type dispatch):
the call fails with a validation message iff neither trail_price nor
trail_percent is supplied; supplying either alone or both together succeeds,
producing a TRAILING_STOP request carrying exactly the supplied trail_price
and trail_percent values (no mutual-exclusivity check). -/
theorem c6_trailing_stop (a : StockArgs) (now : Nat) (os : OrderSide)
    (tf : TimeInForce) (hside : parse_side a.side = some os)
    (htif : convert_time_in_force a.time_in_force = Except.ok tf)
    (hot : strUpper a.order_type = "TRAILING_STOP".data) :
    (a.trail_price = none → a.trail_percent = none →
      build_order_request a now = Except.error
        ("Either trail_price or trail_percent is required for TRAILING_STOP orders.").data) ∧
    (a.trail_price ≠ none ∨ a.trail_percent ≠ none →
      build_order_request a now = Except.ok (StockOrderRequest.trailingStopOrder
        a.symbol a.quantity os OrderType.TRAILING_STOP tf a.trail_price
        a.trail_percent a.extended_hours
        (defaulted_client_order_id a.client_order_id now))) := by
  constructor
  · intro h1 h2
    rw [build_branch_trailing a now os tf hside htif hot, h1, h2]
  · intro h
    rw [build_branch_trailing a now os tf hside htif hot]
    rcases h1 : a.trail_price with _ | tp <;>
      rcases h2 : a.trail_percent with _ | tpc
    · exfalso; rcases h with h | h <;> simp_all
    · rfl
    · rfl
    · rfl

/-- Claim C6 witness: the theorem applied to calls supplying only
trail_price, only trail_percent, both, and neither. -/
theorem c6_witness :
    build_order_request
      { symbol := "AAPL".data, side := "sell".data, quantity := 2,
        order_type := "trailing_stop".data,
        time_in_force := TifArg.enum TimeInForce.GTC, limit_price := none,
        stop_price := none, trail_price := some 5, trail_percent := none,
        extended_hours := false, client_order_id := some ("cid1".data) } 3 =
      Except.ok (StockOrderRequest.trailingStopOrder ("AAPL".data) 2
        OrderSide.SELL OrderType.TRAILING_STOP TimeInForce.GTC (some 5) none
        false ("cid1".data)) ∧
      build_order_request
        { symbol := "AAPL".data, side := "sell".data, quantity := 2,
          order_type := "trailing_stop".data,
          time_in_force := TifArg.enum TimeInForce.GTC, limit_price := none,
          stop_price := none, trail_price := some 5, trail_percent := some 2,
          extended_hours := false, client_order_id := some ("cid1".data) } 3 =
        Except.ok (StockOrderRequest.trailingStopOrder ("AAPL".data) 2
          OrderSide.SELL OrderType.TRAILING_STOP TimeInForce.GTC (some 5)
          (some 2) false ("cid1".data)) ∧
      build_order_request
        { symbol := "AAPL".data, side := "sell".data, quantity := 2,
          order_type := "trailing_stop".data,
          time_in_force := TifArg.enum TimeInForce.GTC, limit_price := none,
          stop_price := none, trail_price := none, trail_percent := none,
          extended_hours := false, client_order_id := some ("cid1".data) } 3 =
        Except.error
          ("Either trail_price or trail_percent is required for TRAILING_STOP orders.").data := by
  refine ⟨?_, ?_, ?_⟩
  · have h := (c6_trailing_stop
      { symbol := "AAPL".data, side := "sell".data, quantity := 2,
        order_type := "trailing_stop".data,
        time_in_force := TifArg.enum TimeInForce.GTC, limit_price := none,
        stop_price := none, trail_price := some 5, trail_percent := none,
        extended_hours := false, client_order_id := some ("cid1".data) } 3
      OrderSide.SELL TimeInForce.GTC rfl rfl rfl).2 (Or.inl (by simp))
    rw [h]
    rfl
  · have h := (c6_trailing_stop
      { symbol := "AAPL".data, side := "sell".data, quantity := 2,
        order_type := "trailing_stop".data,
        time_in_force := TifArg.enum TimeInForce.GTC, limit_price := none,
        stop_price := none, trail_price := some 5, trail_percent := some 2,
        extended_hours := false, client_order_id := some ("cid1".data) } 3
      OrderSide.SELL TimeInForce.GTC rfl rfl rfl).2 (Or.inl (by simp))
    rw [h]
    rfl
  · exact (c6_trailing_stop
      { symbol := "AAPL".data, side := "sell".data, quantity := 2,
        order_type := "trailing_stop".data,
        time_in_force := TifArg.enum TimeInForce.GTC, limit_price := none,
        stop_price := none, trail_price := none, trail_percent := none,
        extended_hours := false, client_order_id := some ("cid1".data) } 3
      OrderSide.SELL TimeInForce.GTC rfl rfl rfl).1 rfl rfl

/-- Claim C5: the option leg processor (precondition checks followed by
per-leg processing) fails for every call with more than 4 legs irrespective
of all other argument values; with exactly 4 legs whose fields are all valid,
a positive order-level quantity and DAY time-in-force, it succeeds and
produces exactly 4 leg request values in the same order as the input list
(the result is the elementwise conversion of the input list). -/
theorem c5_leg_count (legs : List LegDict) (quantity : Int)
    (time_in_force : TimeInForce) :
    (legs.length > 4 → process_legs legs quantity time_in_force =
      Except.error ("Error: Maximum of 4 legs allowed for option orders").data) ∧
    (legs.length = 4 → (∀ leg ∈ legs, validLeg leg = true) → 0 < quantity →
      time_in_force = TimeInForce.DAY →
      process_legs legs quantity time_in_force =
          Except.ok (legs.map legToReq) ∧
        (legs.map legToReq).length = 4) := by
  constructor
  · intro hlen
    have hne : legs.isEmpty = false := by
      cases legs
      · simp at hlen
      · rfl
    simp only [process_legs, _validate_option_order_inputs]
    rw [if_neg (by simp [hne]), if_pos hlen]
  · intro h4 hv hq htif
    subst htif
    have hne : legs.isEmpty = false := by
      cases legs
      · simp at h4
      · rfl
    have hnlen : ¬(legs.length > 4) := by omega
    have hnq : ¬(quantity ≤ 0) := by omega
    refine ⟨?_, by simp [h4]⟩
    simp only [process_legs, _validate_option_order_inputs]
    rw [if_neg (by simp [hne]), if_neg hnlen, if_neg hnq, if_neg (by simp)]
    exact process_option_legs_all_valid legs hv

/-- Claim C5 witness: the theorem applied to a 5-leg call (failure) and to a
4-leg all-valid call (success in input order). -/
theorem c5_witness :
    process_legs
      [⟨"L1".data, "buy".data, RatioQty.intVal 1⟩,
       ⟨"L2".data, "sell".data, RatioQty.intVal 2⟩,
       ⟨"L3".data, "buy".data, RatioQty.intVal 3⟩,
       ⟨"L4".data, "sell".data, RatioQty.intVal 4⟩,
       ⟨"L5".data, "buy".data, RatioQty.intVal 1⟩] (-3) TimeInForce.FOK =
      Except.error ("Error: Maximum of 4 legs allowed for option orders").data ∧
    process_legs
      [⟨"L1".data, "buy".data, RatioQty.intVal 1⟩,
       ⟨"L2".data, "sell".data, RatioQty.intVal 2⟩,
       ⟨"L3".data, "buy".data, RatioQty.intVal 3⟩,
       ⟨"L4".data, "sell".data, RatioQty.intVal 4⟩] 2 TimeInForce.DAY =
      Except.ok
        [⟨"L1".data, OrderSide.BUY, 1⟩, ⟨"L2".data, OrderSide.SELL, 2⟩,
         ⟨"L3".data, OrderSide.BUY, 3⟩, ⟨"L4".data, OrderSide.SELL, 4⟩] := by
  constructor
  · exact (c5_leg_count
      [⟨"L1".data, "buy".data, RatioQty.intVal 1⟩,
       ⟨"L2".data, "sell".data, RatioQty.intVal 2⟩,
       ⟨"L3".data, "buy".data, RatioQty.intVal 3⟩,
       ⟨"L4".data, "sell".data, RatioQty.intVal 4⟩,
       ⟨"L5".data, "buy".data, RatioQty.intVal 1⟩] (-3) TimeInForce.FOK).1
      (by decide)
  · have h := ((c5_leg_count
      [⟨"L1".data, "buy".data, RatioQty.intVal 1⟩,
       ⟨"L2".data, "sell".data, RatioQty.intVal 2⟩,
       ⟨"L3".data, "buy".data, RatioQty.intVal 3⟩,
       ⟨"L4".data, "sell".data, RatioQty.intVal 4⟩] 2 TimeInForce.DAY).2
      rfl (by decide) (by decide) rfl).1
    exact h.trans (by rfl)

/-- Claim C7 (counterexample): the claim asserts that a leg whose ratio_qty
exceeds 4 is rejected.  The per-leg check only requires an integral positive
value, so a single SELL leg with ratio_qty 5 is accepted. -/
theorem c7_counterexample :
    _process_option_legs [⟨"FAKE1".data, "sell".data, RatioQty.intVal 5⟩] =
        Except.ok [⟨"FAKE1".data, OrderSide.SELL, 5⟩] ∧
      (4 : Int) < 5 := by
  exact ⟨rfl, by decide⟩

/-- Claim C7 (amended): for every option order accepted by the leg validator,
every leg's ratio_qty is a positive integer (no upper bound is enforced);
and any leg whose ratio_qty is not an integer or is ≤ 0, all legs before it
being valid, is rejected with a validation failure naming the offending
leg's symbol. -/
theorem c7_ratio_qty (legs : List LegDict) :
    (∀ reqs, _process_option_legs legs = Except.ok reqs →
      ∀ req ∈ reqs, 0 < req.ratio_qty) ∧
    (∀ pre leg post, legs = pre ++ leg :: post →
      (∀ l ∈ pre, validLeg l = true) → badRatio leg →
      _process_option_legs legs =
          Except.error (("Error: Invalid ratio_qty for leg ").data ++
            leg.symbol ++ (". Must be positive integer.").data) ∧
        containsStr leg.symbol
          (("Error: Invalid ratio_qty for leg ").data ++ leg.symbol ++
            (". Must be positive integer.").data) = true) := by
  constructor
  · intro reqs h req hreq
    have hv := process_option_legs_ok_valid legs reqs h
    have heq := process_option_legs_all_valid legs hv
    rw [h] at heq
    injection heq with heq
    subst heq
    obtain ⟨leg, hmem, rfl⟩ := List.mem_map.mp hreq
    have hvl := hv leg hmem
    obtain ⟨s, d, rq⟩ := leg
    cases rq with
    | nonInt => simp [validLeg] at hvl
    | intVal n =>
      simp only [validLeg, Bool.and_eq_true, decide_eq_true_eq] at hvl
      simpa [legToReq] using hvl.1
  · intro pre leg post hsplit hpre hbad
    subst hsplit
    refine ⟨process_option_legs_bad_ratio pre leg post hpre hbad, ?_⟩
    rw [List.append_assoc]
    exact containsStr_append_left _ _ (containsStr_self_append _ _) _

/-- Claim C7 witness: the amended theorem applied to a list whose second leg
has ratio_qty 0 (rejected, message naming "BAD") and to an accepted
single-leg list (positive ratio). -/
theorem c7_witness :
    _process_option_legs
      [⟨"OK1".data, "buy".data, RatioQty.intVal 1⟩,
       ⟨"BAD".data, "sell".data, RatioQty.intVal 0⟩] =
      Except.error
        ("Error: Invalid ratio_qty for leg BAD. Must be positive integer.").data ∧
    (∀ req ∈ [OptionLegRequest.mk ("OK1".data) OrderSide.BUY 1],
      0 < req.ratio_qty) := by
  constructor
  · have h := ((c7_ratio_qty
      [⟨"OK1".data, "buy".data, RatioQty.intVal 1⟩,
       ⟨"BAD".data, "sell".data, RatioQty.intVal 0⟩]).2
      [⟨"OK1".data, "buy".data, RatioQty.intVal 1⟩]
      ⟨"BAD".data, "sell".data, RatioQty.intVal 0⟩ [] rfl (by decide)
      (Or.inr ⟨0, rfl, by decide⟩)).1
    exact h.trans (by rfl)
  · exact fun req hmem => (c7_ratio_qty
      [⟨"OK1".data, "buy".data, RatioQty.intVal 1⟩]).1
      [OptionLegRequest.mk ("OK1".data) OrderSide.BUY 1] rfl req hmem

/-- Claim C10: for every option-order call supplying more than one leg
together with an explicit non-MLEG order class string (e.g. "simple") that
passes validation, the request submitted to the trading client is built from
the first leg only — its symbol and converted side — with no legs list
attached; the legs after the first do not occur in the submitted request
(the request value in the conclusion mentions only `leg0`). -/
theorem c10_non_mleg_first_leg (a : OptionArgs) (now : Nat) (s : List Char)
    (c : OrderClass) (leg0 : LegDict) (rest : List LegDict)
    (hlegs : a.legs = leg0 :: rest) (_hrest : rest ≠ [])
    (hcls : a.order_class = OrderClassArg.str s)
    (hconv : _convert_order_class_string (OrderClassArg.str s) =
      Except.ok (some c))
    (hnm : c ≠ OrderClass.MLEG)
    (hv : ∀ leg ∈ a.legs, validLeg leg = true)
    (hlen : ¬(a.legs.length > 4)) (hq : 0 < a.quantity)
    (htif : a.time_in_force = TimeInForce.DAY) :
    option_order_pipeline a now =
      Except.ok
        ({ symbol := some leg0.symbol, qty := a.quantity,
           side := some ((legToReq leg0).side), order_class := c,
           time_in_force := a.time_in_force,
           extended_hours := a.extended_hours,
           client_order_id := ("mcp_opt_").data ++ (toString now).data,
           type := OrderType.MARKET, legs := none },
         a.legs.map legToReq, c) := by
  have hne : a.legs.isEmpty = false := by rw [hlegs]; rfl
  have hval : _validate_option_order_inputs a.legs a.quantity
      a.time_in_force = none := by
    simp only [_validate_option_order_inputs]
    rw [if_neg (by simp [hne]), if_neg hlen, if_neg (by omega),
      if_neg (by simp [htif])]
  simp only [option_order_pipeline, hval, hcls, hconv,
    process_option_legs_all_valid a.legs hv, resolve_order_class]
  simp only [hlegs, List.map_cons, _create_option_market_order_request]
  rw [if_neg hnm]
  rfl

/-- Claim C10 witness: the theorem applied to a two-leg call with explicit
class "simple"; the submitted request carries the first leg's symbol and
side only, and no legs list. -/
theorem c10_witness :
    option_order_pipeline
      { legs := [⟨"A1".data, "buy".data, RatioQty.intVal 1⟩,
                 ⟨"B2".data, "sell".data, RatioQty.intVal 2⟩],
        order_class := OrderClassArg.str ("simple".data), quantity := 1,
        time_in_force := TimeInForce.DAY, extended_hours := false } 7 =
      Except.ok
        ({ symbol := some ("A1".data), qty := 1, side := some OrderSide.BUY,
           order_class := OrderClass.SIMPLE, time_in_force := TimeInForce.DAY,
           extended_hours := false, client_order_id := ("mcp_opt_7").data,
           type := OrderType.MARKET, legs := none },
         [⟨"A1".data, OrderSide.BUY, 1⟩, ⟨"B2".data, OrderSide.SELL, 2⟩],
         OrderClass.SIMPLE) := by
  have h := c10_non_mleg_first_leg
    { legs := [⟨"A1".data, "buy".data, RatioQty.intVal 1⟩,
               ⟨"B2".data, "sell".data, RatioQty.intVal 2⟩],
      order_class := OrderClassArg.str ("simple".data), quantity := 1,
      time_in_force := TimeInForce.DAY, extended_hours := false } 7
    ("simple".data) OrderClass.SIMPLE
    (⟨"A1".data, "buy".data, RatioQty.intVal 1⟩)
    [⟨"B2".data, "sell".data, RatioQty.intVal 2⟩]
    rfl (by decide) rfl rfl (by decide) (by decide) (by decide) (by decide)
    rfl
  exact h.trans (by rfl)

/-- Claim C9: for every invocation of the stock or option order-placement
tool in which one of the listed input validation checks fails (invalid side,
order type, or time-in-force string; unknown order class string; missing
required price field; empty leg list; more than 4 legs; non-positive
quantity; non-DAY time-in-force for options; invalid ratio_qty or leg side),
the external client's submit_order is never invoked: the validation failure
is returned with the submit flag false. -/
theorem c9_validation_before_submit :
    (∀ (client : StockOrderRequest → SubmitOutcome Order) (a : StockArgs)
      (now : Nat),
      (parse_side a.side = none ∨
       (∃ e, convert_time_in_force a.time_in_force = Except.error e) ∨
       (strUpper a.order_type ≠ "MARKET".data ∧
        strUpper a.order_type ≠ "LIMIT".data ∧
        strUpper a.order_type ≠ "STOP".data ∧
        strUpper a.order_type ≠ "STOP_LIMIT".data ∧
        strUpper a.order_type ≠ "TRAILING_STOP".data) ∨
       (strUpper a.order_type = "LIMIT".data ∧ a.limit_price = none) ∨
       (strUpper a.order_type = "STOP".data ∧ a.stop_price = none) ∨
       (strUpper a.order_type = "STOP_LIMIT".data ∧
         (a.stop_price = none ∨ a.limit_price = none)) ∨
       (strUpper a.order_type = "TRAILING_STOP".data ∧
         a.trail_price = none ∧ a.trail_percent = none)) →
      (place_stock_order client a now).2 = false) ∧
    (∀ (client : OptionOrderRequest → SubmitOutcome Order) (a : OptionArgs)
      (now : Nat),
      (a.legs = [] ∨ a.legs.length > 4 ∨ a.quantity ≤ 0 ∨
       a.time_in_force ≠ TimeInForce.DAY ∨
       (∃ s e, a.order_class = OrderClassArg.str s ∧
         _convert_order_class_string (OrderClassArg.str s) = Except.error e) ∨
       (∃ leg ∈ a.legs, validLeg leg = false)) →
      (place_option_market_order client a now).2 = false) := by
  constructor
  · intro client a now hdis
    rcases hb : build_order_request a now with e | req
    · simp [place_stock_order, hb]
    · exfalso
      obtain ⟨os, hos⟩ := build_ok_side a now req hb
      obtain ⟨tf, htf⟩ := build_ok_tif a now req hb
      rcases hdis with h | ⟨e', he⟩ | ⟨h1, h2, h3, h4, h5⟩ | ⟨hot, hf⟩ |
        ⟨hot, hf⟩ | ⟨hot, hf⟩ | ⟨hot, hf1, hf2⟩
      · rw [h] at hos; cases hos
      · rw [he] at htf; cases htf
      · rw [build_branch_invalid_type a now os tf hos htf h1 h2 h3 h4 h5] at hb
        cases hb
      · rw [build_branch_limit a now os tf hos htf hot, hf] at hb
        cases hb
      · rw [build_branch_stop a now os tf hos htf hot, hf] at hb
        cases hb
      · rw [build_branch_stop_limit a now os tf hos htf hot] at hb
        rcases hf with hf | hf
        · rcases hlp : a.limit_price with _ | lp <;>
            rw [hf, hlp] at hb <;> cases hb
        · rcases hsp : a.stop_price with _ | sp <;>
            rw [hsp, hf] at hb <;> cases hb
      · rw [build_branch_trailing a now os tf hos htf hot, hf1, hf2] at hb
        cases hb
  · intro client a now hdis
    rcases hp : option_order_pipeline a now with e | x
    · simp [place_option_market_order, hp]
    · exfalso
      obtain ⟨hval, hcls, reqs, hpr⟩ := pipeline_ok_facts a now x hp
      obtain ⟨hne, hlen, hq, htif⟩ :=
        validate_none_facts a.legs a.quantity a.time_in_force hval
      rcases hdis with h | h | h | h | ⟨s, e', hcs, herr⟩ | ⟨leg, hmem, hbad⟩
      · rw [h] at hne; simp at hne
      · exact hlen h
      · exact hq h
      · exact h htif
      · rw [hcs] at hcls; exact hcls e' herr
      · rw [process_option_legs_ok_valid a.legs reqs hpr leg hmem] at hbad
        cases hbad

/-- Claim C9 witness: an invalid-side stock call and a five-leg option call;
in both, the submit flag is false. -/
theorem c9_witness :
    (place_stock_order (fun _ => SubmitOutcome.raisesOther [])
      { symbol := "AAPL".data, side := "foo".data, quantity := 1,
        order_type := "MARKET".data,
        time_in_force := TifArg.enum TimeInForce.DAY, limit_price := none,
        stop_price := none, trail_price := none, trail_percent := none,
        extended_hours := false, client_order_id := none } 0).2 = false ∧
    (place_option_market_order (fun _ => SubmitOutcome.raisesOther [])
      { legs := [⟨"L1".data, "buy".data, RatioQty.intVal 1⟩,
                 ⟨"L2".data, "buy".data, RatioQty.intVal 1⟩,
                 ⟨"L3".data, "buy".data, RatioQty.intVal 1⟩,
                 ⟨"L4".data, "buy".data, RatioQty.intVal 1⟩,
                 ⟨"L5".data, "buy".data, RatioQty.intVal 1⟩],
        order_class := OrderClassArg.omitted, quantity := 1,
        time_in_force := TimeInForce.DAY, extended_hours := false } 0).2
      = false := by
  constructor
  · exact c9_validation_before_submit.1 _ _ 0 (Or.inl (by decide))
  · exact c9_validation_before_submit.2 _ _ 0 (Or.inr (Or.inl (by decide)))

/-- A prefix of a string is a prefix of any extension of that string. -/
theorem startsWithStr_extend (p q t : List Char)
    (h : startsWithStr p q = true) : startsWithStr p (q ++ t) = true := by
  induction p generalizing q with
  | nil => rfl
  | cons a p ih =>
    cases q with
    | nil => cases h
    | cons b q' =>
      simp only [startsWithStr, Bool.and_eq_true] at h
      obtain ⟨hab, h'⟩ := h
      simp only [List.cons_append, startsWithStr, Bool.and_eq_true]
      exact ⟨hab, ih q' h'⟩

/-- Intro rule for `startsAny`. -/
theorem startsAny_intro (s p : List Char) (ps : List (List Char))
    (hmem : p ∈ ps) (h : startsWithStr p s = true) : startsAny s ps = true := by
  simp only [startsAny, List.any_eq_true]
  exact ⟨p, hmem, h⟩

/-- A failed time-in-force conversion message starts with its fixed text. -/
theorem convert_tif_error_start (t : TifArg) (e : List Char)
    (h : convert_time_in_force t = Except.error e) :
    startsWithStr (("Invalid time_in_force: ").data) e = true := by
  cases t with
  | enum tf => cases h
  | str s =>
    simp only [convert_time_in_force] at h
    split_ifs at h <;>
      first
        | (injection h with he; subst he; exact startsWithStr_append _ _)
        | cases h

/-- Every builder failure message starts with one of the stock prefixes. -/
theorem build_error_start (a : StockArgs) (now : Nat) (e : List Char)
    (h : build_order_request a now = Except.error e) :
    startsAny e stock_result_prefixes = true := by
  rcases hs : parse_side a.side with _ | os
  · rw [build_branch_side a now hs] at h
    injection h with he
    subst he
    exact startsAny_intro _ (("Invalid order side: ").data) _ (by decide)
      (startsWithStr_append _ _)
  rcases ht : convert_time_in_force a.time_in_force with e' | tf
  · rw [build_branch_tif a now os e' hs ht] at h
    injection h with he
    subst he
    exact startsAny_intro _ (("Invalid time_in_force: ").data) _ (by decide)
      (convert_tif_error_start _ _ ht)
  by_cases h1 : strUpper a.order_type = "MARKET".data
  · rw [build_branch_market a now os tf hs ht h1] at h
    cases h
  by_cases h2 : strUpper a.order_type = "LIMIT".data
  · rw [build_branch_limit a now os tf hs ht h2] at h
    rcases hlp : a.limit_price with _ | lp <;> rw [hlp] at h
    · injection h with he
      subst he
      exact startsAny_intro _ (("limit_price is required").data) _ (by decide)
        (by decide)
    · cases h
  by_cases h3 : strUpper a.order_type = "STOP".data
  · rw [build_branch_stop a now os tf hs ht h3] at h
    rcases hsp : a.stop_price with _ | sp <;> rw [hsp] at h
    · injection h with he
      subst he
      exact startsAny_intro _ (("stop_price is required").data) _ (by decide)
        (by decide)
    · cases h
  by_cases h4 : strUpper a.order_type = "STOP_LIMIT".data
  · rw [build_branch_stop_limit a now os tf hs ht h4] at h
    rcases hsp : a.stop_price with _ | sp <;>
      rcases hlp : a.limit_price with _ | lp <;> rw [hsp, hlp] at h <;>
        first
          | (injection h with he; subst he;
             exact startsAny_intro _
               (("Both stop_price and limit_price are required").data) _
               (by decide) (by decide))
          | cases h
  by_cases h5 : strUpper a.order_type = "TRAILING_STOP".data
  · rw [build_branch_trailing a now os tf hs ht h5] at h
    rcases hsp : a.trail_price with _ | tp <;>
      rcases hlp : a.trail_percent with _ | tpc <;> rw [hsp, hlp] at h <;>
        first
          | (injection h with he; subst he;
             exact startsAny_intro _
               (("Either trail_price or trail_percent is required").data) _
               (by decide) (by decide))
          | cases h
  rw [build_branch_invalid_type a now os tf hs ht h1 h2 h3 h4 h5] at h
  injection h with he
  subst he
  exact startsAny_intro _ (("Invalid order type: ").data) _ (by decide)
    (startsWithStr_append _ _)

/-- Every option input-validation failure message starts with "Error: ". -/
theorem validate_some_start (legs : List LegDict) (q : Int) (tif : TimeInForce)
    (msg : List Char)
    (h : _validate_option_order_inputs legs q tif = some msg) :
    startsWithStr (("Error: ").data) msg = true := by
  simp only [_validate_option_order_inputs] at h
  split_ifs at h <;>
    first
      | (injection h with he; subst he; decide)
      | cases h

/-- A failed order-class conversion message starts with its fixed text. -/
theorem convert_class_error_start (oc : OrderClassArg) (e : List Char)
    (h : _convert_order_class_string oc = Except.error e) :
    startsWithStr (("Invalid order class: ").data) e = true := by
  cases oc with
  | enum c => cases h
  | omitted => cases h
  | str s =>
    simp only [_convert_order_class_string] at h
    split_ifs at h <;>
      first
        | (injection h with he; subst he; exact startsWithStr_append _ _)
        | cases h

/-- Every per-leg processing failure message starts with one of the option
prefixes. -/
theorem process_error_start (legs : List LegDict) (e : List Char)
    (h : _process_option_legs legs = Except.error e) :
    startsAny e option_result_prefixes = true := by
  induction legs generalizing e with
  | nil => cases h
  | cons leg rest ih =>
    obtain ⟨sym, sd, rq⟩ := leg
    cases rq with
    | nonInt =>
      simp only [_process_option_legs] at h
      injection h with he
      subst he
      exact startsAny_intro _ (("Error: ").data) _ (by decide)
        (startsWithStr_extend (("Error: ").data)
          (("Error: Invalid ratio_qty for leg ").data) _ (by decide))
    | intVal n =>
      simp only [_process_option_legs] at h
      by_cases h1 : n ≤ 0
      · rw [if_pos h1] at h
        injection h with he
        subst he
        exact startsAny_intro _ (("Error: ").data) _ (by decide)
          (startsWithStr_extend (("Error: ").data)
            (("Error: Invalid ratio_qty for leg ").data) _ (by decide))
      · rw [if_neg h1] at h
        by_cases h2 : strLower sd = "buy".data
        · rw [if_pos h2] at h
          rcases hrec : _process_option_legs rest with e' | tl <;> rw [hrec] at h
          · injection h with he
            subst he
            exact ih e' hrec
          · cases h
        · rw [if_neg h2] at h
          by_cases h3 : strLower sd = "sell".data
          · rw [if_pos h3] at h
            rcases hrec : _process_option_legs rest with e' | tl <;>
              rw [hrec] at h
            · injection h with he
              subst he
              exact ih e' hrec
            · cases h
          · rw [if_neg h3] at h
            injection h with he
            subst he
            exact startsAny_intro _ (("Invalid order side: ").data) _
              (by decide) (startsWithStr_append _ _)

set_option maxRecDepth 8192 in
/-- Every output of the error taxonomy mapper starts with an indented
"Error" template prefix. -/
theorem handle_option_error_start (msg : List Char)
    (order_legs : List OptionLegRequest) (order_class : OrderClass) :
    startsAny (_handle_option_api_error msg order_legs order_class)
      option_result_prefixes = true := by
  simp only [_handle_option_api_error]
  split_ifs <;>
    first
      | decide
      | (exact startsAny_intro _ (("\n        Error: ").data) _ (by decide)
          (startsWithStr_extend (("\n        Error: ").data)
            (("\n        Error: Permission denied for option trading.\n\n        Possible reasons:\n        1. Insufficient account level for the requested strategy\n        2. Account restrictions on option trading\n        3. Missing required permissions\n\n        Please check:\n        1. Your account\x27s option trading level\n        2. Any specific restrictions on your account\n        3. Required permissions for the strategy you\x27re trying to implement\n\n        Original error: ").data)
            _ (by decide)))
      | (exact startsAny_intro _
          (("\n        Error placing option order: ").data) _ (by decide)
          (startsWithStr_append _ _))

/-- Every pipeline failure message starts with one of the option prefixes. -/
theorem pipeline_error_start (a : OptionArgs) (now : Nat) (e : List Char)
    (h : option_order_pipeline a now = Except.error e) :
    startsAny e option_result_prefixes = true := by
  simp only [option_order_pipeline] at h
  split at h
  · rename_i err heq
    injection h with he
    subst he
    exact startsAny_intro _ (("Error: ").data) _ (by decide)
      (validate_some_start _ _ _ _ heq)
  · split at h
    · rename_i msg heq2
      injection h with he
      subst he
      exact startsAny_intro _ (("Invalid order class: ").data) _ (by decide)
        (convert_class_error_start _ _ heq2)
    · rename_i oc heq2
      split at h
      · rename_i msg heq3
        injection h with he
        subst he
        exact process_error_start _ _ heq3
      · rename_i order_legs heq3
        split at h
        · injection h with he
          subst he
          exact startsAny_intro _
            (("\n        Unexpected error placing option order: ").data) _
            (by decide) (startsWithStr_append _ _)
        · cases h

/-- Claim C8 (counterexample): the claim asserts every failure result begins
with "Error:".  An invalid side makes `place_stock_order` return
"Invalid order side: foo. Must be \x27buy\x27 or \x27sell\x27.", which does
not begin with "Error:" (and no exception is raised — the result is a
returned string). -/
theorem c8_counterexample :
    (place_stock_order (fun _ => SubmitOutcome.raisesOther [])
      { symbol := "AAPL".data, side := "foo".data, quantity := 1,
        order_type := "MARKET".data,
        time_in_force := TifArg.enum TimeInForce.DAY, limit_price := none,
        stop_price := none, trail_price := none, trail_percent := none,
        extended_hours := false, client_order_id := none } 0).1 =
      ("Invalid order side: foo. Must be \x27buy\x27 or \x27sell\x27.").data ∧
      startsWithStr ("Error:".data)
        ("Invalid order side: foo. Must be \x27buy\x27 or \x27sell\x27.").data
        = false := by
  exact ⟨rfl, by decide⟩

/-- Claim C8 (amended): every failure path of the order-placement tools is
represented as a returned string (the embedded tools are total functions
into strings — no failure escapes as an exception), but the strings do not
uniformly begin with "Error:": every stock-tool result begins with one of
the fixed stock prefixes (success banner, "Invalid …", a required-field
phrase, or "Error placing order: "), every option-tool result begins with
one of the fixed option prefixes, and among these only the option
input-validation failures are guaranteed to begin with "Error:". -/
theorem c8_failure_strings :
    (∀ (client : StockOrderRequest → SubmitOutcome Order) (a : StockArgs)
      (now : Nat),
      startsAny ((place_stock_order client a now).1) stock_result_prefixes
        = true) ∧
    (∀ (client : OptionOrderRequest → SubmitOutcome Order) (a : OptionArgs)
      (now : Nat),
      startsAny ((place_option_market_order client a now).1)
        option_result_prefixes = true) ∧
    (∀ legs q tif msg, _validate_option_order_inputs legs q tif = some msg →
      startsWithStr (("Error: ").data) msg = true) := by
  refine ⟨?_, ?_, fun legs q tif msg h => validate_some_start legs q tif msg h⟩
  · intro client a now
    simp only [place_stock_order]
    split
    · rename_i e hb
      exact build_error_start a now e hb
    · split
      · exact startsAny_intro _ (("\nOrder Placed Successfully:").data) _
          (by decide)
          (startsWithStr_extend (("\nOrder Placed Successfully:").data)
            (("\nOrder Placed Successfully:\n-------------------------\nOrder ID: ").data)
            _ (by decide))
      · exact startsAny_intro _ (("Error placing order: ").data) _
          (by decide) (startsWithStr_append _ _)
      · exact startsAny_intro _ (("Error placing order: ").data) _
          (by decide) (startsWithStr_append _ _)
  · intro client a now
    simp only [place_option_market_order]
    split
    · rename_i e hp
      exact pipeline_error_start a now e hp
    · rename_i od order_legs oc hp
      split
      · exact startsAny_intro _
          (("\n            Option Market Order Placed Successfully:").data) _
          (by decide)
          (startsWithStr_extend
            (("\n            Option Market Order Placed Successfully:").data)
            (("\n            Option Market Order Placed Successfully:\n            --------------------------------------\n            Order ID: ").data)
            _ (by decide))
      · rename_i m hm
        exact handle_option_error_start m order_legs oc
      · exact startsAny_intro _
          (("\n        Unexpected error placing option order: ").data) _
          (by decide) (startsWithStr_append _ _)

/-- Claim C8 witness: the amended theorem applied to a concrete stock call
(invalid side) and a concrete option call (empty legs), plus the validator
prefix fact at a concrete input. -/
theorem c8_witness :
    startsAny ((place_stock_order (fun _ => SubmitOutcome.raisesOther [])
      { symbol := "AAPL".data, side := "foo".data, quantity := 1,
        order_type := "MARKET".data,
        time_in_force := TifArg.enum TimeInForce.DAY, limit_price := none,
        stop_price := none, trail_price := none, trail_percent := none,
        extended_hours := false, client_order_id := none } 0).1)
      stock_result_prefixes = true ∧
    startsAny ((place_option_market_order (fun _ => SubmitOutcome.raisesOther [])
      { legs := [], order_class := OrderClassArg.omitted, quantity := 1,
        time_in_force := TimeInForce.DAY, extended_hours := false } 0).1)
      option_result_prefixes = true ∧
    startsWithStr (("Error: ").data)
      ("Error: No option legs provided").data = true := by
  refine ⟨c8_failure_strings.1 _ _ 0, c8_failure_strings.2.1 _ _ 0, ?_⟩
  exact c8_failure_strings.2.2 [] 1 TimeInForce.DAY
    ("Error: No option legs provided").data rfl

end Alpaca
